import Mathlib

/-!
Verification development for the JS value-animation engine
(`packages/motion-dom/src/animation/JSAnimation.ts` and
`packages/motion-dom/src/animation/keyframes/utils/is-none.ts`).

Times and values are modelled as rationals (`ℚ`): the source arithmetic
(+, -, *, /, `Math.round`, `Math.floor`, `%`, `Math.min`, `Math.max`) is
exact on the inputs of interest, and `ℚ` keeps every definition
executable.  JS `Math.round` (round half toward +infinity) coincides with
Mathlib's `round`; JS `x % 1` truncates toward zero, modelled by `jsMod1`.

Generators (spring, inertia, keyframes, `calcGeneratorDuration`) and the
driver are external collaborators of this file's source and are modelled
as abstract data: a generator is a sampling function `ℚ → AnimationState`
with a cached optional duration, exactly the contract the engine relies
on.  The process-wide `activeAnimations.mainThread` counter is carried as
a `counter` field on the engine state.
-/

namespace Motion

/-- `AnimationPlayState` of the engine. -/
inductive PlayState where
  | idle
  | running
  | paused
  | finished
deriving DecidableEq

/-- The `repeatType` option: `"loop" | "reverse" | "mirror"`. -/
inductive RepeatType where
  | loop
  | reverse
  | mirror
deriving DecidableEq

/-- Tag identifying which generator factory the `type` option selects
(`keyframes` is the default, `spring`/`inertia` are the two-keyframe
physics generators, `custom` stands for any user-supplied factory). -/
inductive GenFactory where
  | keyframesGen
  | spring
  | inertia
  | custom
deriving DecidableEq

/-- A generator sample `{ value, done }`. -/
structure AnimationState where
  value : ℚ
  done : Bool
deriving DecidableEq

/-- A keyframe generator: `next(t)` plus the mutable cached
`calculatedDuration` slot (`null` until known). -/
structure Generator where
  next : ℚ → AnimationState
  calculatedDuration : Option ℚ

/-- The subset of `ValueAnimationOptions` the engine core reads. -/
structure ValueAnimationOptions where
  keyframes : List ℚ := []
  delay : ℚ := 0
  «repeat» : ℕ := 0
  repeatDelay : ℚ := 0
  repeatType : RepeatType := .loop
  type : Option GenFactory := none
  autoplay : Bool := true
  startTime : Option ℚ := none
  finalKeyframe : Option ℚ := none
  velocity : ℚ := 0

/-- JS `Math.round`: round half toward +infinity, as Mathlib's `round`. -/
def jsRound (q : ℚ) : ℚ := (round q : ℤ)

/-- motion-utils `clamp(min, max, v) = Math.min(Math.max(v, min), max)`. -/
def clamp (lo hi v : ℚ) : ℚ := min (max v lo) hi

/-- JS truncation toward zero (the integer part used by the `%` operator). -/
def jsTrunc (q : ℚ) : ℤ := if 0 ≤ q then ⌊q⌋ else ⌈q⌉

/-- JS `q % 1.0`: remainder with the sign of `q`. -/
def jsMod1 (q : ℚ) : ℚ := q - jsTrunc q

/-- motion-utils `secondsToMilliseconds`. -/
def secondsToMilliseconds (s : ℚ) : ℚ := s * 1000

/-- motion-utils `millisecondsToSeconds`. -/
def millisecondsToSeconds (ms : ℚ) : ℚ := ms / 1000

/-- The persistent state of a `JSAnimation` instance.  `counter` is the
process-wide `activeAnimations.mainThread` statistic as seen by this
engine (incremented in the constructor, decremented in `teardown`). -/
structure Engine where
  state : PlayState
  startTime : Option ℚ
  currentTime : ℚ
  holdTime : Option ℚ
  playbackSpeed : ℚ
  isStopped : Bool
  hasDriver : Bool
  generator : Generator
  mirroredGenerator : Option Generator
  mixKeyframes : Option (ℚ → ℚ)
  calculatedDuration : Option ℚ
  resolvedDuration : ℚ
  totalDuration : ℚ
  options : ValueAnimationOptions
  counter : ℤ

/-- `updateTime(timestamp)`: `animationTime = Math.round(timestamp -
startTime) * playbackSpeed`; `currentTime` becomes `holdTime` when held,
the animation time otherwise.  A `null` `startTime` coerces to `0` in the
JS subtraction. -/
def updateTime (holdTime startTime : Option ℚ) (timestamp speed : ℚ) : ℚ :=
  match holdTime with
  | some h => h
  | none => jsRound (timestamp - startTime.getD 0) * speed

/-- `tick` lines 210-217: clamp `startTime` against the incoming driver
timestamp (`Math.min(startTime, timestamp)` forward, the
`timestamp - totalDuration / speed` bound in reverse). -/
def clampedStartTime (e : Engine) (timestamp : ℚ) : ℚ :=
  let st := e.startTime.getD 0
  if e.playbackSpeed > 0 then min st timestamp
  else if e.playbackSpeed < 0 then
    min (timestamp - e.totalDuration / e.playbackSpeed) st
  else st

/-- `tick` lines 219-223: `currentTime` is the raw timestamp when
sampling synchronously, otherwise `updateTime` against the clamped
start time. -/
def rawTime (e : Engine) (timestamp : ℚ) (sample : Bool) : ℚ :=
  if sample then timestamp
  else updateTime e.holdTime (some (clampedStartTime e timestamp)) timestamp e.playbackSpeed

/-- `tick` lines 226-227: rebase on the signed delay. -/
def timeWithoutDelay (e : Engine) (timestamp : ℚ) (sample : Bool) : ℚ :=
  rawTime e timestamp sample - e.options.delay * (if e.playbackSpeed ≥ 0 then 1 else -1)

/-- `tick` lines 228-231: in the delay phase when the rebased time is
negative (forward) or beyond `totalDuration` (reverse). -/
def isInDelayPhase (e : Engine) (timestamp : ℚ) (sample : Bool) : Bool :=
  if e.playbackSpeed ≥ 0 then decide (timeWithoutDelay e timestamp sample < 0)
  else decide (timeWithoutDelay e timestamp sample > e.totalDuration)

/-- `tick` lines 232-237: clamp `currentTime` to `≥ 0`, and force it to
`totalDuration` for a finished, un-held animation. -/
def tickCurrentTime (e : Engine) (timestamp : ℚ) (sample : Bool) : ℚ :=
  let ct := max (timeWithoutDelay e timestamp sample) 0
  if e.state = .finished ∧ e.holdTime = none then e.totalDuration else ct

/-- `tick` lines 242-292, the `if (repeat)` block: from the clamped
current time compute the elapsed time to sample the generator at, and
whether the mirrored generator is the one to sample (`repeatType ===
"mirror"` on an odd iteration).  Verbatim translation of the source:
`progress = Math.min(currentTime, totalDuration) / resolvedDuration`,
`currentIteration = Math.floor(progress)`, `iterationProgress =
progress % 1.0` promoted to `1` when zero with `progress >= 1`,
decrement on `iterationProgress === 1`, `Math.min(currentIteration,
repeat + 1)`, odd-iteration reverse flip (subtracting the repeat-delay
fraction only when `repeatDelay` is non-zero, as the JS truthiness test
does), and finally `clamp(0, 1, iterationProgress) * resolvedDuration`. -/
def repeatLogic (rep : ℕ) (repeatType : RepeatType) (repeatDelay : ℚ)
    (currentTime totalDuration resolvedDuration : ℚ) : ℚ × Bool :=
  let progress := min currentTime totalDuration / resolvedDuration
  let currentIteration : ℤ := ⌊progress⌋
  let iterationProgress := jsMod1 progress
  let iterationProgress :=
    if iterationProgress = 0 ∧ progress ≥ 1 then 1 else iterationProgress
  let currentIteration :=
    if iterationProgress = 1 then currentIteration - 1 else currentIteration
  let currentIteration := min currentIteration ((rep : ℤ) + 1)
  let isOddIteration := currentIteration % 2 = 1
  let iterationProgress :=
    if isOddIteration ∧ repeatType = .reverse then
      if repeatDelay ≠ 0 then
        1 - iterationProgress - repeatDelay / resolvedDuration
      else 1 - iterationProgress
    else iterationProgress
  (clamp 0 1 iterationProgress * resolvedDuration,
    decide (isOddIteration ∧ repeatType = .mirror))

/-- The `(elapsed, use mirrored generator)` pair `tick` feeds the
generator: the repeat block when `repeat` is truthy, the clamped current
time (primary generator) otherwise. -/
def tickElapsed (e : Engine) (timestamp : ℚ) (sample : Bool) : ℚ × Bool :=
  if e.options.«repeat» ≠ 0 then
    repeatLogic e.options.«repeat» e.options.repeatType e.options.repeatDelay
      (tickCurrentTime e timestamp sample) e.totalDuration e.resolvedDuration
  else (tickCurrentTime e timestamp sample, false)

/-- `tick` lines 307-314: outside the delay phase, when the generator's
duration is known, `done` is recomputed from the time bounds, replacing
the generator's self-reported flag. -/
def recomputeDone (inDelayPhase cdKnown : Bool) (speed ct td : ℚ)
    (generatorDone : Bool) : Bool :=
  if inDelayPhase = false ∧ cdKnown = true then
    if speed ≥ 0 then decide (ct ≥ td) else decide (ct ≤ 0)
  else generatorDone

/-- Modelled from the spec: `getFinalKeyframe`
(`animation/keyframes/get-final.ts`) is not under `src/`, only its unit
test is.  Following spec section 4.3 and the repository test: the first
keyframe is used for negative speed or for an odd repeat count with a
non-loop repeat type, otherwise the last; the explicit `finalKeyframe`
bias is honored only at the last index (the test drives
`getFinalKeyframe([0,1], opts, -1)`).  Null keyframes (filtered in the
source) cannot occur for the numeric keyframes modelled here. -/
def getFinalKeyframe (keyframes : List ℚ) (rep : ℕ) (repeatType : RepeatType)
    (finalKeyframe : Option ℚ) (speed : ℚ) : ℚ :=
  let useFirstKeyframe :=
    speed < 0 ∨ (rep ≠ 0 ∧ repeatType ≠ .loop ∧ rep % 2 = 1)
  let index := if useFirstKeyframe then 0 else keyframes.length - 1
  if index = 0 ∨ finalKeyframe = none then keyframes.getD index 0
  else finalKeyframe.getD 0

/-- `teardown()`: state to `idle`, stop and release the driver, null out
`startTime` and `holdTime`, decrement the active-animation counter. -/
def teardown (e : Engine) : Engine :=
  { e with
    state := .idle
    hasDriver := false
    startTime := none
    holdTime := none
    counter := e.counter - 1 }

/-- `finish()`: resolve the completion promise (not modelled), tear
down, set state to `finished`, invoke `onComplete` (not modelled). -/
def finish (e : Engine) : Engine :=
  { teardown e with state := .finished }

/-- The main body of `tick` (lines 193-338), entered once `startTime` is
known to be set.  Returns the updated engine and the returned sample;
the returned sample keeps the generator's own `done` flag (the source
reassigns only the destructured local), while the recomputed flag drives
finish detection. -/
def tickMain (e : Engine) (timestamp : ℚ) (sample : Bool) : Engine × AnimationState :=
  let inDelay := isInDelayPhase e timestamp sample
  let ct := tickCurrentTime e timestamp sample
  let eg := tickElapsed e timestamp sample
  let frameGenerator := if eg.2 then e.mirroredGenerator.getD e.generator else e.generator
  let st : AnimationState :=
    if inDelay then ⟨e.options.keyframes.headD 0, false⟩
    else frameGenerator.next eg.1
  let mixedValue :=
    match e.mixKeyframes with
    | some f => f st.value
    | none => st.value
  let done :=
    recomputeDone inDelay e.calculatedDuration.isSome e.playbackSpeed ct
      e.totalDuration st.done
  let isAnimationFinished :=
    e.holdTime = none ∧ (e.state = .finished ∨ (e.state = .running ∧ done = true))
  let finalValue :=
    if isAnimationFinished ∧ ¬e.options.type = some .inertia then
      getFinalKeyframe e.options.keyframes e.options.«repeat» e.options.repeatType
        e.options.finalKeyframe e.playbackSpeed
    else mixedValue
  let e1 := { e with startTime := some (clampedStartTime e timestamp), currentTime := ct }
  let e2 := if isAnimationFinished then finish e1 else e1
  (e2, ⟨finalValue, st.done⟩)

/-- `tick(timestamp, sample)`: with `startTime === null` return the
generator's sample at `0` without touching the engine, otherwise run the
main body. -/
def tick (e : Engine) (timestamp : ℚ) (sample : Bool) : Engine × AnimationState :=
  if e.startTime = none then (e, e.generator.next 0)
  else tickMain e timestamp sample

/-- `cancel()`: clear `holdTime`, reset `startTime` to `0`, tick once at
`t = 0` (whose sample is handed to `onUpdate`), tear down, invoke
`onCancel` (not modelled).  Returns the torn-down engine and the sample
the cancel tick reported. -/
def cancel (e : Engine) : Engine × AnimationState :=
  let e1 := { e with holdTime := none, startTime := some 0 }
  let r := tick e1 0 false
  (teardown r.1, r.2)

/-- `play()`, with `now` standing for `driver.now()`: no-op once
permanently stopped; lazily create the driver; resolve `startTime` from
the finished/held/unset cases (the JS `!this.startTime` test also treats
a zero start time as unset), add `calculatedDuration` when restarting a
finished reverse-speed animation; clear `holdTime`, set state to
`running`, start the driver. -/
def play (e : Engine) (now : ℚ) : Engine :=
  if e.isStopped then e
  else
    let startTime1 :=
      if e.state = .finished then some now
      else
        match e.holdTime with
        | some h => some (now - h)
        | none =>
          if e.startTime = none ∨ e.startTime = some 0 then
            some (e.options.startTime.getD now)
          else e.startTime
    let startTime2 :=
      if e.state = .finished ∧ e.playbackSpeed < 0 then
        some (startTime1.getD 0 + e.calculatedDuration.getD 0)
      else startTime1
    { e with
      hasDriver := true
      startTime := startTime2
      holdTime := none
      state := .running }

/-- `pause()`, with `now` standing for `time.now()`: set state to
`paused`, run `updateTime`, capture `currentTime` into `holdTime`. -/
def pause (e : Engine) (now : ℚ) : Engine :=
  let ct := updateTime e.holdTime e.startTime now e.playbackSpeed
  { e with state := .paused, currentTime := ct, holdTime := some ct }

/-- `stop()`, with `now` for `time.now()` and `motionValueStale` for the
`motionValue && motionValue.updatedAt !== time.now()` test: force a
synchronous tick when the bound value is stale, mark permanently
stopped, tear down unless already idle, invoke `onStop` (not
modelled). -/
def stop (e : Engine) (now : ℚ) (motionValueStale : Bool) : Engine :=
  let e1 := if motionValueStale then (tick e now false).1 else e
  let e2 := { e1 with isStopped := true }
  if e2.state = .idle then e2 else teardown e2

/-- The `time` getter: `millisecondsToSeconds(currentTime)`. -/
def getTime (e : Engine) : ℚ :=
  millisecondsToSeconds e.currentTime

/-- The `time` setter, with `now` for `driver.now()`: convert seconds to
milliseconds, store into `currentTime`; hold it when not yet started,
already held, or at zero speed; otherwise rebase `startTime` against the
driver clock.  The trailing `driver?.start(false)` nudge does not change
any modelled field. -/
def setTime (e : Engine) (newTimeSeconds now : ℚ) : Engine :=
  let newTime := secondsToMilliseconds newTimeSeconds
  let e1 := { e with currentTime := newTime }
  if e.startTime = none ∨ e.holdTime ≠ none ∨ e.playbackSpeed = 0 then
    { e1 with holdTime := some newTime }
  else if e.hasDriver then
    { e1 with startTime := some (now - newTime / e.playbackSpeed) }
  else e1

/-- The generator factory `initAnimation` selects:
`(type as GeneratorFactory) || keyframesGenerator` (an absent or falsy
`type` falls back to the keyframes generator).  `replaceTransitionType`
is assumed to have already mapped legacy string types to factories. -/
def generatorFactoryTag (opts : ValueAnimationOptions) : GenFactory :=
  opts.type.getD .keyframesGen

/-- The message of the development-time `invariant` in `initAnimation`
(the JS template string interpolates the keyframes array). -/
def invariantMessage (keyframes : List ℚ) : String :=
  "Only two keyframes currently supported with spring and inertia animations. Trying to animate "
    ++ toString keyframes

/-- The development-build assertion at the top of `initAnimation`: when
the selected factory is not the default keyframes generator, `invariant`
fires unless `keyframes.length <= 2`.  Production builds skip it. -/
def initAnimationAssertion (opts : ValueAnimationOptions) : Option String :=
  if generatorFactoryTag opts ≠ .keyframesGen ∧ ¬opts.keyframes.length ≤ 2 then
    some (invariantMessage opts.keyframes)
  else none

/-- The duration bookkeeping `initAnimation` derives. -/
structure InitData where
  generator : Generator
  mirroredGenerator : Option Generator
  calculatedDuration : ℚ
  resolvedDuration : ℚ
  totalDuration : ℚ

/-- `initAnimation()` (production semantics; the development assertion is
`initAnimationAssertion`).  `factory` abstracts the selected generator
factory and `calcGenDur` abstracts `calcGeneratorDuration` (both live
outside this source).  Numeric keyframes never enter the percent-mixer
branch (`typeof keyframes[0] !== "number"` is false), so `mixKeyframes`
stays unset and the keyframes are passed through unchanged.  A mirror
repeat builds the second generator from the reversed keyframes and
negated velocity; a generator with no cached duration gets one computed
and cached; then `resolvedDuration = calculatedDuration + repeatDelay`
and `totalDuration = resolvedDuration * (repeat + 1) - repeatDelay`. -/
def initAnimation (factory : ValueAnimationOptions → Generator)
    (calcGenDur : Generator → ℚ) (opts : ValueAnimationOptions) : InitData :=
  let generator0 := factory opts
  let mirroredGenerator :=
    if opts.repeatType = .mirror then
      some (factory { opts with
        keyframes := opts.keyframes.reverse
        velocity := -opts.velocity })
    else none
  let calculatedDuration :=
    match generator0.calculatedDuration with
    | some d => d
    | none => calcGenDur generator0
  let generator := { generator0 with calculatedDuration := some calculatedDuration }
  let resolvedDuration := calculatedDuration + opts.repeatDelay
  { generator
    mirroredGenerator
    calculatedDuration
    resolvedDuration
    totalDuration := resolvedDuration * ((opts.«repeat» : ℚ) + 1) - opts.repeatDelay }

/-- The constructor: increment `activeAnimations.mainThread`, store the
options, run `initAnimation`, `play()`, and `pause()` when `autoplay ===
false`.  `now` stands for both clocks read during construction. -/
def construct (factory : ValueAnimationOptions → Generator)
    (calcGenDur : Generator → ℚ) (opts : ValueAnimationOptions)
    (now : ℚ) (counter0 : ℤ) : Engine :=
  let d := initAnimation factory calcGenDur opts
  let e : Engine :=
    { state := .idle
      startTime := none
      currentTime := 0
      holdTime := none
      playbackSpeed := 1
      isStopped := false
      hasDriver := false
      generator := d.generator
      mirroredGenerator := d.mirroredGenerator
      mixKeyframes := none
      calculatedDuration := some d.calculatedDuration
      resolvedDuration := d.resolvedDuration
      totalDuration := d.totalDuration
      options := opts
      counter := counter0 + 1 }
  let e1 := play e now
  if opts.autoplay = false then pause e1 now else e1

/-- A CSS-ish value as `is-none.ts` sees it: `string | number | null`. -/
inductive CssValue where
  | num (n : ℚ)
  | str (s : String)
  | null
deriving DecidableEq

/-- `isNone(value)` from `keyframes/utils/is-none.ts`, parameterised by
the external motion-utils predicate `isZeroValueString`: a number is
"none" exactly when it is `0`; a non-null value (hence a string) when it
is `"none"`, `"0"`, or a zero-value string; `null` always. -/
def isNone (isZeroValueString : String → Bool) : CssValue → Bool
  | .num n => decide (n = 0)
  | .str s => decide (s = "none") || decide (s = "0") || isZeroValueString s
  | .null => true

/-! Concrete instances used by witnesses and counterexamples. -/

/-- A 100ms linear 0-to-1 generator with its duration cached. -/
def linearGenerator : Generator :=
  ⟨fun t => ⟨min (t / 100) 1, decide (100 ≤ t)⟩, some 100⟩

/-- A mid-flight running engine over `linearGenerator`. -/
def runningEngine : Engine :=
  { state := .running
    startTime := some 0
    currentTime := 0
    holdTime := none
    playbackSpeed := 1
    isStopped := false
    hasDriver := true
    generator := linearGenerator
    mirroredGenerator := none
    mixKeyframes := none
    calculatedDuration := some 100
    resolvedDuration := 100
    totalDuration := 100
    options := { keyframes := [0, 1] }
    counter := 1 }

/-- The same engine after natural completion re-entered `finished`. -/
def finishedEngine : Engine :=
  { runningEngine with state := .finished, currentTime := 100 }

/-- A paused engine. -/
def pausedEngine : Engine :=
  { runningEngine with state := .paused, holdTime := some 40, currentTime := 40 }

/-- An engine that has not started yet (`startTime === null`). -/
def idleEngine : Engine :=
  { runningEngine with state := .idle, startTime := none, hasDriver := false }

/-- A long animation running at double speed. -/
def fastEngine : Engine :=
  { runningEngine with
    playbackSpeed := 2
    generator := ⟨fun t => ⟨t, decide (10000 ≤ t)⟩, some 10000⟩
    calculatedDuration := some 10000
    resolvedDuration := 10000
    totalDuration := 10000 }

/-- A generator that is already settled at `t = 0` (zero duration). -/
def zeroDurationGenerator : Generator := ⟨fun _ => ⟨1, true⟩, some 0⟩

/-- Options for a plain zero-duration animation. -/
def zeroDurationOptions : ValueAnimationOptions := { keyframes := [0, 1] }

/-- Options with repeats for the duration-arithmetic witness. -/
def repeatOptions : ValueAnimationOptions :=
  { keyframes := [0, 1], «repeat» := 2, repeatDelay := 50 }

/-- A running engine with two reverse repeats and a 50ms repeat delay
(cycle 250ms, so `resolvedDuration = 300` and `totalDuration = 850`). -/
def repeatEngine : Engine :=
  { runningEngine with
    options :=
      { keyframes := [0, 1], «repeat» := 2, repeatType := .reverse, repeatDelay := 50 }
    generator := ⟨fun t => ⟨min (t / 250) 1, decide (250 ≤ t)⟩, some 250⟩
    calculatedDuration := some 250
    resolvedDuration := 300
    totalDuration := 850 }

/-! Theorems. -/

/-- C8: calling `tick` with any timestamp while `startTime` is `null`
returns the generator's sample at `t = 0` and leaves the whole engine
(in particular `state`, `currentTime`, `startTime`, `holdTime` and
`playbackSpeed`) unchanged. -/
theorem tick_before_start (e : Engine) (timestamp : ℚ) (smp : Bool)
    (h : e.startTime = none) :
    tick e timestamp smp = (e, e.generator.next 0) := by
  simp [tick, h]

/-- Witness for C8 on a concrete un-started engine. -/
theorem tick_before_start_witness :
    idleEngine.startTime = none ∧
      tick idleEngine 123 false = (idleEngine, idleEngine.generator.next 0) :=
  ⟨rfl, tick_before_start idleEngine 123 false rfl⟩

/-- C6: on a paused engine, writing the `time` property (seconds) and
reading it back returns exactly the written value. -/
theorem seek_roundtrip (e : Engine) (x now : ℚ) (h : e.state = .paused) :
    getTime (setTime e x now) = x := by
  unfold getTime setTime millisecondsToSeconds secondsToMilliseconds
  split_ifs <;> (dsimp only; rw [mul_div_assoc]; norm_num)

/-- Witness for C6 with a fractional seek target. -/
theorem seek_roundtrip_witness :
    pausedEngine.state = .paused ∧ getTime (setTime pausedEngine (3 / 2) 7) = 3 / 2 :=
  ⟨rfl, seek_roundtrip pausedEngine (3 / 2) 7 rfl⟩

/-- C10: `isNone` is true exactly on `null`, the number `0`, and the
strings `"none"`, `"0"` and zero-value strings; false on every other
number and every other non-null string. -/
theorem isNone_iff (isZeroValueString : String → Bool) (v : CssValue) :
    isNone isZeroValueString v = true ↔
      v = .null ∨ v = .num 0 ∨
        ∃ s, v = .str s ∧ (s = "none" ∨ s = "0" ∨ isZeroValueString s = true) := by
  cases v with
  | num n => simp [isNone]
  | str s => simp [isNone, or_assoc]
  | null => simp [isNone]

/-- C9: the development-time `invariant` in `initAnimation` fires
exactly when a non-default (spring/inertia/custom) generator factory is
selected and more than two keyframes are supplied, and its message is
the fixed text interpolating the offending keyframes. -/
theorem init_assertion_iff (opts : ValueAnimationOptions) :
    ((initAnimationAssertion opts).isSome = true ↔
        generatorFactoryTag opts ≠ .keyframesGen ∧ 2 < opts.keyframes.length) ∧
      (initAnimationAssertion opts).getD (invariantMessage opts.keyframes) =
        invariantMessage opts.keyframes := by
  constructor
  · unfold initAnimationAssertion
    split_ifs with h
    · simpa [Nat.lt_iff_add_one_le] using h
    · simp only [Option.isSome_none, Bool.false_eq_true, false_iff]
      intro hcontra
      exact h ⟨hcontra.1, by omega⟩
  · unfold initAnimationAssertion
    split_ifs <;> simp

/-- C2: after `initAnimation`, `resolvedDuration = calculatedDuration +
repeatDelay` and `totalDuration = resolvedDuration * (repeat + 1) -
repeatDelay`; with a non-negative repeat delay and duration this forces
`calculatedDuration ≤ totalDuration`. -/
theorem init_durations (factory : ValueAnimationOptions → Generator)
    (calcGenDur : Generator → ℚ) (opts : ValueAnimationOptions)
    (hrd : 0 ≤ opts.repeatDelay)
    (hcd : 0 ≤ (initAnimation factory calcGenDur opts).calculatedDuration) :
    (initAnimation factory calcGenDur opts).resolvedDuration =
        (initAnimation factory calcGenDur opts).calculatedDuration + opts.repeatDelay ∧
      (initAnimation factory calcGenDur opts).totalDuration =
        (initAnimation factory calcGenDur opts).resolvedDuration
          * ((opts.«repeat» : ℚ) + 1) - opts.repeatDelay ∧
      (initAnimation factory calcGenDur opts).calculatedDuration ≤
        (initAnimation factory calcGenDur opts).totalDuration := by
  refine ⟨rfl, rfl, ?_⟩
  have key : ∀ (c rd : ℚ) (r : ℕ), 0 ≤ c → 0 ≤ rd →
      c ≤ (c + rd) * ((r : ℚ) + 1) - rd := by
    intro c rd r hc hrdn
    have hr : (0 : ℚ) ≤ (r : ℚ) := Nat.cast_nonneg r
    nlinarith
  exact key _ _ _ hcd hrd

/-- Witness for C2 on a two-repeat, 50ms-repeat-delay configuration. -/
theorem init_durations_witness :
    0 ≤ repeatOptions.repeatDelay ∧
      0 ≤ (initAnimation (fun _ => linearGenerator) (fun _ => 0)
            repeatOptions).calculatedDuration ∧
      ((initAnimation (fun _ => linearGenerator) (fun _ => 0)
            repeatOptions).resolvedDuration =
          (initAnimation (fun _ => linearGenerator) (fun _ => 0)
              repeatOptions).calculatedDuration + repeatOptions.repeatDelay ∧
        (initAnimation (fun _ => linearGenerator) (fun _ => 0)
            repeatOptions).totalDuration =
          (initAnimation (fun _ => linearGenerator) (fun _ => 0)
              repeatOptions).resolvedDuration
            * ((repeatOptions.«repeat» : ℚ) + 1) - repeatOptions.repeatDelay ∧
        (initAnimation (fun _ => linearGenerator) (fun _ => 0)
            repeatOptions).calculatedDuration ≤
          (initAnimation (fun _ => linearGenerator) (fun _ => 0)
              repeatOptions).totalDuration) :=
  ⟨by decide, by decide,
    init_durations (fun _ => linearGenerator) (fun _ => 0) repeatOptions
      (by decide) (by decide)⟩

/-- C3: in a tick outside the delay phase with the generator's duration
known, the `done` flag is recomputed purely from time bounds —
`currentTime ≥ totalDuration` for non-negative speed, `currentTime ≤ 0`
otherwise — whatever `done` the generator reported; consequently the
finish decision of a running, un-held tick depends only on that time
bound. -/
theorem done_from_time_bounds (e : Engine) (timestamp : ℚ) (smp : Bool)
    (generatorDone : Bool) (s0 : ℚ)
    (hstart : e.startTime = some s0)
    (hdelay : isInDelayPhase e timestamp smp = false)
    (hknown : e.calculatedDuration.isSome = true)
    (hrun : e.state = .running)
    (hhold : e.holdTime = none) :
    (recomputeDone (isInDelayPhase e timestamp smp) e.calculatedDuration.isSome
        e.playbackSpeed (tickCurrentTime e timestamp smp) e.totalDuration
        generatorDone =
      if e.playbackSpeed ≥ 0 then
        decide (tickCurrentTime e timestamp smp ≥ e.totalDuration)
      else decide (tickCurrentTime e timestamp smp ≤ 0)) ∧
    (tick e timestamp smp).1.state =
      (if (if e.playbackSpeed ≥ 0 then
            decide (tickCurrentTime e timestamp smp ≥ e.totalDuration)
          else decide (tickCurrentTime e timestamp smp ≤ 0)) = true
        then PlayState.finished else .running) := by
  have key : ∀ g : Bool,
      recomputeDone (isInDelayPhase e timestamp smp) e.calculatedDuration.isSome
          e.playbackSpeed (tickCurrentTime e timestamp smp) e.totalDuration g =
        if e.playbackSpeed ≥ 0 then
          decide (tickCurrentTime e timestamp smp ≥ e.totalDuration)
        else decide (tickCurrentTime e timestamp smp ≤ 0) := by
    intro g
    rw [hdelay, hknown]
    simp [recomputeDone]
  refine ⟨key generatorDone, ?_⟩
  have hmain : tick e timestamp smp = tickMain e timestamp smp := by
    rw [tick, if_neg (by simp [hstart])]
  rw [hmain]
  unfold tickMain
  dsimp only
  rw [key]
  by_cases hf :
      (if e.playbackSpeed ≥ 0 then
          decide (tickCurrentTime e timestamp smp ≥ e.totalDuration)
        else decide (tickCurrentTime e timestamp smp ≤ 0)) = true
  · rw [if_pos hf, if_pos ⟨hhold, Or.inr ⟨hrun, hf⟩⟩]
    rfl
  · rw [if_neg hf, if_neg ?_]
    · exact hrun
    · rintro ⟨-, hb | hb⟩
      · rw [hrun] at hb
        exact absurd hb (by decide)
      · exact hf hb.2

/-- Witness for C3: a running engine at its end time, with a generator
reporting `done = false`, is still finished by the time bound. -/
theorem done_from_time_bounds_witness :
    runningEngine.startTime = some 0 ∧
      isInDelayPhase runningEngine 100 false = false ∧
      runningEngine.calculatedDuration.isSome = true ∧
      runningEngine.state = .running ∧
      runningEngine.holdTime = none ∧
      (recomputeDone (isInDelayPhase runningEngine 100 false)
          runningEngine.calculatedDuration.isSome runningEngine.playbackSpeed
          (tickCurrentTime runningEngine 100 false) runningEngine.totalDuration
          false =
        if runningEngine.playbackSpeed ≥ 0 then
          decide (tickCurrentTime runningEngine 100 false ≥ runningEngine.totalDuration)
        else decide (tickCurrentTime runningEngine 100 false ≤ 0)) ∧
      (tick runningEngine 100 false).1.state =
        (if (if runningEngine.playbackSpeed ≥ 0 then
              decide (tickCurrentTime runningEngine 100 false ≥ runningEngine.totalDuration)
            else decide (tickCurrentTime runningEngine 100 false ≤ 0)) = true
          then PlayState.finished else .running) :=
  by
  have hdelay : isInDelayPhase runningEngine 100 false = false := by
    norm_num [isInDelayPhase, timeWithoutDelay, rawTime, updateTime,
      clampedStartTime, jsRound, round_eq, runningEngine]
  exact ⟨rfl, hdelay, rfl, rfl, rfl,
    (done_from_time_bounds runningEngine 100 false false 0 rfl hdelay rfl rfl rfl).1,
    (done_from_time_bounds runningEngine 100 false false 0 rfl hdelay rfl rfl rfl).2⟩

/-- The repeat block of `tick` agrees with the claim's description of it:
for non-negative times and a positive cycle length, its output is
exactly the promoted/decremented/clamped iteration arithmetic with the
unconditional repeat-delay subtraction on odd reverse iterations. -/
theorem repeatLogic_claim (rep : ℕ) (rt : RepeatType) (rd ct td res : ℚ)
    (hct : 0 ≤ ct) (htd : 0 ≤ td) (hres : 0 < res) :
    repeatLogic rep rt rd ct td res =
      (let progress := min ct td / res
       let wholeEnd := Int.fract progress = 0 ∧ progress ≥ 1
       let iterationProgress := if wholeEnd then 1 else Int.fract progress
       let iteration : ℤ :=
         min (if wholeEnd then ⌊progress⌋ - 1 else ⌊progress⌋) ((rep : ℤ) + 1)
       let flipped :=
         if iteration % 2 = 1 ∧ rt = .reverse then
           1 - iterationProgress - rd / res
         else iterationProgress
       (clamp 0 1 flipped * res,
         decide (iteration % 2 = 1 ∧ rt = .mirror))) := by
  have hp : 0 ≤ min ct td / res := div_nonneg (le_min hct htd) hres.le
  have hmod : jsMod1 (min ct td / res) = Int.fract (min ct td / res) := by
    rw [jsMod1, jsTrunc, if_pos hp, Int.self_sub_floor]
  unfold repeatLogic
  dsimp only
  rw [hmod]
  by_cases hw : Int.fract (min ct td / res) = 0 ∧ min ct td / res ≥ 1
  · simp only [if_pos hw]
    by_cases hrd : rd = 0
    · simp [hrd]
    · simp [hrd]
  · simp only [if_neg hw]
    have hne : Int.fract (min ct td / res) ≠ 1 :=
      ne_of_lt (Int.fract_lt_one (min ct td / res))
    simp only [if_neg hne]
    by_cases hrd : rd = 0
    · simp [hrd]
    · simp [hrd]

/-- C1: in a tick with `startTime` set and `repeat > 0` (with sane
durations: non-negative total, positive cycle), the elapsed time handed
to the generator and the mirrored-generator switch are computed exactly
as described: `progress = min(currentTime, totalDuration) /
resolvedDuration`, `iteration = floor(progress)` and `iterationProgress
= progress mod 1`, promotion to exactly `1` (decrementing the iteration)
when progress is a whole number ≥ 1, iteration clamped to `repeat + 1`,
odd iterations flipping to `1 - iterationProgress -
repeatDelay/resolvedDuration` for `"reverse"` or selecting the mirrored
generator for `"mirror"`, and the generator sampled at
`clamp01(iterationProgress) * resolvedDuration`. -/
theorem tick_repeat_iteration (e : Engine) (timestamp : ℚ) (smp : Bool)
    (hstart : e.startTime ≠ none)
    (hrep : e.options.«repeat» ≠ 0)
    (htd : 0 ≤ e.totalDuration)
    (hres : 0 < e.resolvedDuration) :
    tickElapsed e timestamp smp =
      (let progress :=
        min (tickCurrentTime e timestamp smp) e.totalDuration / e.resolvedDuration
       let wholeEnd := Int.fract progress = 0 ∧ progress ≥ 1
       let iterationProgress := if wholeEnd then 1 else Int.fract progress
       let iteration : ℤ :=
         min (if wholeEnd then ⌊progress⌋ - 1 else ⌊progress⌋)
           ((e.options.«repeat» : ℤ) + 1)
       let flipped :=
         if iteration % 2 = 1 ∧ e.options.repeatType = .reverse then
           1 - iterationProgress - e.options.repeatDelay / e.resolvedDuration
         else iterationProgress
       (clamp 0 1 flipped * e.resolvedDuration,
         decide (iteration % 2 = 1 ∧ e.options.repeatType = .mirror))) := by
  have hct : 0 ≤ tickCurrentTime e timestamp smp := by
    unfold tickCurrentTime
    dsimp only
    split_ifs
    · exact htd
    · exact le_max_right _ _
  rw [tickElapsed, if_pos hrep]
  exact repeatLogic_claim _ _ _ _ _ _ hct htd hres

/-- Witness for C1: a reverse-repeat engine sampled mid third cycle
(progress 5/4, odd iteration 1) lands the generator at
`(1 - 1/4 - 50/300) * 300 = 175`. -/
theorem tick_repeat_iteration_witness :
    repeatEngine.startTime ≠ none ∧ repeatEngine.options.«repeat» ≠ 0 ∧
      0 ≤ repeatEngine.totalDuration ∧ 0 < repeatEngine.resolvedDuration ∧
      tickElapsed repeatEngine 375 true = (175, false) := by
  refine ⟨by simp [repeatEngine, runningEngine], by norm_num [repeatEngine],
    by norm_num [repeatEngine], by norm_num [repeatEngine], ?_⟩
  rw [tick_repeat_iteration repeatEngine 375 true
      (by simp [repeatEngine, runningEngine]) (by norm_num [repeatEngine])
      (by norm_num [repeatEngine]) (by norm_num [repeatEngine])]
  have hctv : tickCurrentTime repeatEngine 375 true = 375 := by
    norm_num [tickCurrentTime, timeWithoutDelay, rawTime, repeatEngine, runningEngine]
    decide
  rw [hctv]
  norm_num [repeatEngine, runningEngine, Int.fract, clamp, Prod.ext_iff]
  decide

/-- `tick`'s main path always stores the clamped current time, whether
or not the tick finishes the animation (`finish` preserves it). -/
theorem tickMain_fst_currentTime (e : Engine) (timestamp : ℚ) (smp : Bool) :
    (tickMain e timestamp smp).1.currentTime = tickCurrentTime e timestamp smp := by
  unfold tickMain
  dsimp only
  split_ifs <;> rfl

/-- C5 (amended): for a running, un-held engine at playback speed 1 with
no delay and a start time no later than the pause instant, `pause()`
then `play()` with no clock advance resumes exactly: the next tick
reproduces the `currentTime` captured at the pause. -/
theorem pause_play_resume (e : Engine) (now s : ℚ)
    (hst : e.startTime = some s)
    (hh : e.holdTime = none)
    (hspd : e.playbackSpeed = 1)
    (hd : e.options.delay = 0)
    (hstop : e.isStopped = false)
    (hsnow : s ≤ now) :
    (tick (play (pause e now) now) now false).1.currentTime =
      (pause e now).currentTime := by
  have hR : updateTime e.holdTime e.startTime now e.playbackSpeed = jsRound (now - s) := by
    rw [hh, hst]
    simp [updateTime, hspd]
  have hRnn : (0 : ℚ) ≤ jsRound (now - s) := by
    rw [jsRound]
    have : (0 : ℤ) ≤ round (now - s) := by
      rw [round_eq]
      refine Int.floor_nonneg.mpr ?_
      have : (0 : ℚ) ≤ now - s := sub_nonneg.mpr hsnow
      linarith
    exact_mod_cast this
  have hpause : pause e now =
      { e with
        state := .paused
        currentTime := jsRound (now - s)
        holdTime := some (jsRound (now - s)) } := by
    rw [pause, hR]
  have hplay : play (pause e now) now =
      { e with
        state := .running
        hasDriver := true
        currentTime := jsRound (now - s)
        holdTime := none
        startTime := some (now - jsRound (now - s)) } := by
    rw [hpause]
    rw [play]
    rw [if_neg (by simp [hstop])]
    dsimp only
    rw [if_neg (by simp)]
    rw [if_neg (by simp)]
  rw [hplay]
  rw [tick, if_neg (by simp)]
  rw [tickMain_fst_currentTime]
  have hclamp : clampedStartTime
      { e with
        state := .running
        hasDriver := true
        currentTime := jsRound (now - s)
        holdTime := none
        startTime := some (now - jsRound (now - s)) } now =
      now - jsRound (now - s) := by
    rw [clampedStartTime]
    dsimp only [Option.getD_some]
    rw [if_pos (by rw [hspd]; norm_num)]
    exact min_eq_left (by linarith)
  have hraw : rawTime
      { e with
        state := .running
        hasDriver := true
        currentTime := jsRound (now - s)
        holdTime := none
        startTime := some (now - jsRound (now - s)) } now false =
      jsRound (now - s) := by
    rw [rawTime, if_neg (by simp), hclamp]
    simp only [updateTime, Option.getD_some]
    rw [hspd, mul_one]
    have : now - (now - jsRound (now - s)) = jsRound (now - s) := by ring
    rw [this, jsRound, jsRound, round_intCast]
  rw [tickCurrentTime]
  dsimp only
  rw [if_neg (by simp)]
  rw [timeWithoutDelay, hraw]
  dsimp only
  rw [hd, zero_mul, sub_zero, hpause]
  dsimp only
  exact max_eq_left hRnn

/-- Counterexample to C5 as stated: at playback speed 2 the resumed tick
doubles the held time (pause captures 200, the post-resume tick lands at
400), so pause/play is not drift-free at every speed. -/
theorem pause_play_counterexample :
    (tick (play (pause fastEngine 100) 100) 100 false).1.currentTime ≠
      (pause fastEngine 100).currentTime := by
  have h1 : pause fastEngine 100 =
      { fastEngine with
        state := .paused
        currentTime := 200
        holdTime := some 200 } := by
    rw [pause]
    norm_num [updateTime, fastEngine, runningEngine, jsRound, round_eq]
  have h2 : play (pause fastEngine 100) 100 =
      { fastEngine with
        state := .running
        hasDriver := true
        currentTime := 200
        holdTime := none
        startTime := some (-100) } := by
    rw [h1, play]
    rw [if_neg (by simp [fastEngine, runningEngine])]
    dsimp only
    rw [if_neg (by simp)]
    rw [if_neg (by simp)]
    norm_num
  rw [h2, h1, tick, if_neg (by simp), tickMain_fst_currentTime]
  have hct : tickCurrentTime
      { fastEngine with
        state := .running
        hasDriver := true
        currentTime := 200
        holdTime := none
        startTime := some (-100) } 100 false =
      400 := by
    rw [tickCurrentTime]
    dsimp only
    rw [if_neg (by simp)]
    norm_num [timeWithoutDelay, rawTime, updateTime, clampedStartTime,
      fastEngine, runningEngine, jsRound, round_eq]
  rw [hct]
  norm_num

/-- Witness for C5 (amended) at speed 1: pausing `runningEngine` at 50
and replaying resumes at the captured 50ms. -/
theorem pause_play_resume_witness :
    runningEngine.startTime = some 0 ∧ runningEngine.holdTime = none ∧
      runningEngine.playbackSpeed = 1 ∧ runningEngine.options.delay = 0 ∧
      runningEngine.isStopped = false ∧ (0 : ℚ) ≤ 50 ∧
      (tick (play (pause runningEngine 50) 50) 50 false).1.currentTime =
        (pause runningEngine 50).currentTime :=
  ⟨rfl, rfl, rfl, rfl, rfl, by norm_num,
    pause_play_resume runningEngine 50 0 rfl rfl rfl rfl rfl (by norm_num)⟩

/-- At current time `0` the repeat block is inert: iteration 0, even,
elapsed `0`, primary generator. -/
theorem repeatLogic_zero (rep : ℕ) (rt : RepeatType) (rd td res : ℚ)
    (htd : 0 ≤ td) :
    repeatLogic rep rt rd 0 td res = (0, false) := by
  unfold repeatLogic
  dsimp only
  rw [min_eq_left htd, zero_div]
  have h1 : jsMod1 (0 : ℚ) = 0 := by norm_num [jsMod1, jsTrunc]
  have hmin : min (0 : ℤ) ((rep : ℤ) + 1) = 0 :=
    min_eq_left (by positivity)
  simp only [h1]
  norm_num [Int.floor_zero, hmin, clamp]

/-- A `cancel()` whose internal `t = 0` tick does not itself finish the
animation (engine not already `finished`, forward speed, no delay,
positive total duration, known generator duration, no percent mixer):
the tick samples the primary generator at `0` and the single `teardown`
produces the idle engine. -/
theorem cancel_eval (e : Engine)
    (hstate : e.state ≠ .finished)
    (hsp : 0 ≤ e.playbackSpeed)
    (hd : e.options.delay = 0)
    (htd : 0 < e.totalDuration)
    (hcd : e.calculatedDuration.isSome = true)
    (hmix : e.mixKeyframes = none) :
    cancel e =
      ({ e with
          state := .idle
          hasDriver := false
          startTime := none
          holdTime := none
          currentTime := 0
          counter := e.counter - 1 },
        e.generator.next 0) := by
  rw [cancel]
  set E : Engine := { e with holdTime := none, startTime := some 0 } with hE
  have hEspeed : E.playbackSpeed = e.playbackSpeed := by rw [hE]
  have hEstate : E.state = e.state := by rw [hE]
  have hEhold : E.holdTime = none := by rw [hE]
  have hEstart : E.startTime = some 0 := by rw [hE]
  have hEdelay : E.options.delay = 0 := by rw [hE]; exact hd
  have hEtd : E.totalDuration = e.totalDuration := by rw [hE]
  have hEcd : E.calculatedDuration = e.calculatedDuration := by rw [hE]
  have hEmix : E.mixKeyframes = none := by rw [hE]; exact hmix
  have hcs : clampedStartTime E 0 = 0 := by
    rw [clampedStartTime, hEstart]
    dsimp only [Option.getD_some]
    rw [hEspeed]
    by_cases h : e.playbackSpeed > 0
    · rw [if_pos h, min_self]
    · rw [if_neg h, if_neg (not_lt.mpr hsp)]
  have hraw : rawTime E 0 false = 0 := by
    rw [rawTime, if_neg (by simp), hEhold, hcs]
    simp [updateTime, jsRound, round_zero]
  have htwd : timeWithoutDelay E 0 false = 0 := by
    rw [timeWithoutDelay, hraw, hEdelay]
    rw [zero_mul, sub_zero]
  have hphase : isInDelayPhase E 0 false = false := by
    rw [isInDelayPhase, hEspeed, if_pos hsp, htwd]
    simp
  have hctE : tickCurrentTime E 0 false = 0 := by
    rw [tickCurrentTime]
    dsimp only
    rw [if_neg (by rw [hEstate]; simp [hstate]), htwd, max_self]
  have helE : tickElapsed E 0 false = (0, false) := by
    rw [tickElapsed]
    by_cases hr : E.options.«repeat» = 0
    · rw [if_neg (not_not_intro hr), hctE]
    · rw [if_pos hr, hctE, hEtd]
      exact repeatLogic_zero _ _ _ _ _ htd.le
  have hdoneE : ∀ g : Bool,
      recomputeDone false E.calculatedDuration.isSome
        E.playbackSpeed 0 E.totalDuration g = false := by
    intro g
    rw [hEcd, hEspeed, hEtd, recomputeDone, if_pos ⟨rfl, hcd⟩, if_pos hsp]
    have hn : ¬((0 : ℚ) ≥ e.totalDuration) := not_le.mpr htd
    simp [hn]
  have htickE : tick E 0 false = tickMain E 0 false := by
    rw [tick, if_neg (by rw [hEstart]; simp)]
  have hmainE : tickMain E 0 false =
      ({ E with startTime := some 0, currentTime := 0 }, E.generator.next 0) := by
    unfold tickMain
    dsimp only
    rw [hphase, hctE, helE, hcs]
    rw [hdoneE]
    simp only [hEhold, hEstate, hEmix]
    simp [hstate, hmix]
  rw [htickE, hmainE, teardown]

/-- C7 (amended): `cancel()` called while the engine is not `finished`
(and whose `t = 0` tick cannot itself finish: forward speed, no delay,
positive total duration, known duration, no percent mixer) reports the
generator's sample at `t = 0`, clears `holdTime` and `startTime`, and
leaves the engine `idle`. -/
theorem cancel_resets_value (e : Engine)
    (hstate : e.state ≠ .finished)
    (hsp : 0 ≤ e.playbackSpeed)
    (hd : e.options.delay = 0)
    (htd : 0 < e.totalDuration)
    (hcd : e.calculatedDuration.isSome = true)
    (hmix : e.mixKeyframes = none) :
    (cancel e).2 = e.generator.next 0 ∧ (cancel e).1.state = .idle ∧
      (cancel e).1.holdTime = none ∧ (cancel e).1.startTime = none := by
  rw [cancel_eval e hstate hsp hd htd hcd hmix]
  exact ⟨rfl, rfl, rfl, rfl⟩

/-- Witness for C7 (amended) on the mid-flight running engine. -/
theorem cancel_resets_value_witness :
    runningEngine.state ≠ .finished ∧ 0 ≤ runningEngine.playbackSpeed ∧
      runningEngine.options.delay = 0 ∧ 0 < runningEngine.totalDuration ∧
      runningEngine.calculatedDuration.isSome = true ∧
      runningEngine.mixKeyframes = none ∧
      ((cancel runningEngine).2 = runningEngine.generator.next 0 ∧
        (cancel runningEngine).1.state = .idle ∧
        (cancel runningEngine).1.holdTime = none ∧
        (cancel runningEngine).1.startTime = none) :=
  ⟨by decide, by decide, rfl, by decide, rfl, rfl,
    cancel_resets_value runningEngine (by decide) (by decide) rfl (by decide) rfl rfl⟩

/-- Counterexample to C7 as stated: cancelling a `finished` engine
forces `currentTime` to the total duration and the final-keyframe
override, so the reported value is the final keyframe `1`, not the
generator's `t = 0` sample `0`. -/
theorem cancel_value_counterexample :
    (cancel finishedEngine).2.value ≠ (finishedEngine.generator.next 0).value := by
  norm_num [cancel, tick, tickMain, tickElapsed, tickCurrentTime, isInDelayPhase,
    timeWithoutDelay, rawTime, updateTime, clampedStartTime, recomputeDone,
    getFinalKeyframe, teardown, finish, jsRound, round_eq, finishedEngine,
    runningEngine, linearGenerator, clamp]
  simp

/-- C4 (amended): for a running, un-held engine whose cancel-time tick
cannot itself finish the animation, each single teardown path — finish,
stop (without a stale motion value), cancel — decrements the
active-animation counter exactly once. -/
theorem counter_single_decrement (e : Engine) (now : ℚ)
    (hrun : e.state = .running)
    (hsp : 0 ≤ e.playbackSpeed)
    (hd : e.options.delay = 0)
    (htd : 0 < e.totalDuration)
    (hcd : e.calculatedDuration.isSome = true)
    (hmix : e.mixKeyframes = none) :
    (finish e).counter = e.counter - 1 ∧
      (stop e now false).counter = e.counter - 1 ∧
      (cancel e).1.counter = e.counter - 1 := by
  have hstate : e.state ≠ .finished := by
    rw [hrun]
    decide
  refine ⟨rfl, ?_, ?_⟩
  · simp [stop, teardown, hrun]
  · rw [cancel_eval e hstate hsp hd htd hcd hmix]

/-- Witness for C4 (amended) on the mid-flight running engine. -/
theorem counter_single_decrement_witness :
    runningEngine.state = .running ∧ 0 ≤ runningEngine.playbackSpeed ∧
      runningEngine.options.delay = 0 ∧ 0 < runningEngine.totalDuration ∧
      runningEngine.calculatedDuration.isSome = true ∧
      runningEngine.mixKeyframes = none ∧
      ((finish runningEngine).counter = runningEngine.counter - 1 ∧
        (stop runningEngine 7 false).counter = runningEngine.counter - 1 ∧
        (cancel runningEngine).1.counter = runningEngine.counter - 1) :=
  ⟨rfl, by decide, rfl, by decide, rfl, rfl,
    counter_single_decrement runningEngine 7 rfl (by decide) rfl (by decide) rfl rfl⟩

/-- Counterexample to C4 as stated: constructing a zero-duration
autoplaying animation (counter goes from 0 to 1) and cancelling it ends
with the counter at `-1`, not the pre-construction `0` — the cancel tick
finishes the animation, `finish` tears down once, and `cancel` tears
down again. -/
theorem active_count_counterexample :
    (cancel (construct (fun _ => zeroDurationGenerator) (fun _ => 0)
        zeroDurationOptions 0 0)).1.counter = -1 := by
  norm_num [cancel, construct, initAnimation, play, pause, tick, tickMain,
    tickElapsed, tickCurrentTime, isInDelayPhase, timeWithoutDelay, rawTime,
    updateTime, clampedStartTime, recomputeDone, getFinalKeyframe, finish,
    teardown, jsRound, round_eq, zeroDurationGenerator, zeroDurationOptions]
  simp

end Motion
